import Mathlib

/-!
# Service-reject hand-off of the NAS EMM layer (openair-cn)

A shallow embedding of `SRC/NAS/EMM/ServiceRequestHdl.c` (the functions
`emm_proc_service_reject` and `_emm_service_reject`) and of the bearer data
declarations of `SRC/NAS/ESM/esm_data.h`.

Conventions of the embedding:

* machine integers are `Nat` (unsigned) or `Int` (signed); no arithmetic is
  performed on them by the embedded code, only comparisons and copies;
* a C pointer is `Option _`: `none` is `NULL`;
* the process state that external functions may read or write is an explicit
  world `W`, threaded through every call of `emm_sap_send`;
* values of `#define`s and enumerators that live in headers outside the two
  source files are fields of `nas_constants`, so every result holds for every
  choice of their values;
* the two external functions called by the code are parameters:
  `emm_as_set_security_data` acts on the data behind its two pointer arguments
  only (it writes the first, reads the second), `emm_sap_send` may read and
  write the whole world; where a result is about what the send does to the
  session store, the send is the one the design document describes (§4.6);
* the logging statements (`OAILOG_*`) have no effect on data and are omitted.
-/

namespace OpenairCN

/-! ## Constants and types taken from headers outside the sources -/

/-- Values of the constants that the code names but that are defined in headers
outside the two source files (`common_defs.h`, `emm_cause.h`, `emm_sap.h`,
`emm_asDef.h`). -/
structure nas_constants where
  RETURNok : Int
  RETURNerror : Int
  EMM_CAUSE_SUCCESS : Int
  EMM_CAUSE_IMPLICITLY_DETACHED : Int
  EMMAS_ESTABLISH_REJ : Nat
  EMM_AS_NAS_INFO_SR : Nat
deriving DecidableEq, Repr

/-- The type `mme_ue_s1ap_id_t` of lower-layer UE identifiers: an unsigned
integer (the external interface gives "integer ≥ 0"). -/
abbrev mme_ue_s1ap_id_t := Nat

/-- The type `emm_cause_t` of EMM cause codes. -/
abbrev emm_cause_t := Int

/-- A C pointer whose target the code never inspects: `none` is `NULL`, `some a`
an address. -/
abbrev pointer := Option Nat

/-! ## `ServiceRequestHdl.c`: data -/

/-- The fields of `ue_mm_ctx.emm_context` that the code reads or writes. `Sec` is
the type of the EMM security context `_security`. -/
structure emm_context_t (Sec : Type) where
  is_dynamic : Bool
  emm_cause : emm_cause_t
  _security : Sec
deriving DecidableEq, Repr

/-- The fields of `struct ue_mm_context_s` that the code reads or writes. -/
structure ue_mm_context_s (Sec : Type) where
  mme_ue_s1ap_id : mme_ue_s1ap_id_t
  emm_context : emm_context_t Sec
deriving DecidableEq, Repr

/-- The value of `struct ue_mm_context_s ue_mm_ctx = {0}`. -/
def ue_mm_context_s.zero (Sec : Type) [Zero Sec] : ue_mm_context_s Sec :=
  { mme_ue_s1ap_id := 0
    emm_context := { is_dynamic := false, emm_cause := 0, _security := 0 } }

/-- The member `eps_id` of the establish primitive; only its `guti` pointer is
written by the code. -/
structure eps_id_t where
  guti : pointer
deriving DecidableEq, Repr

/-- The fields of `emm_sap.u.emm_as.u.establish` that the code writes. `Sctx` is
the type of the security data `sctx` of the primitive. -/
structure emm_as_establish_t (Sctx : Type) where
  ue_id : mme_ue_s1ap_id_t
  eps_id : eps_id_t
  emm_cause : emm_cause_t
  nas_info : Nat
  nas_msg : pointer
  sctx : Sctx
deriving DecidableEq, Repr

/-- The primitive `emm_sap_t`: its kind and the member `u.emm_as.u.establish` of
its payload, the only member the code uses. -/
structure emm_sap_t (Sctx : Type) where
  primitive : Nat
  establish : emm_as_establish_t Sctx
deriving DecidableEq, Repr

/-- The value of `emm_sap_t emm_sap = {0}`. -/
def emm_sap_t.zero (Sctx : Type) [Zero Sctx] : emm_sap_t Sctx :=
  { primitive := 0
    establish :=
      { ue_id := 0, eps_id := { guti := none }, emm_cause := 0, nas_info := 0,
        nas_msg := none, sctx := 0 } }

/-- The result of `_emm_service_reject`: the returned status `rc`, the record
behind `args` as the function leaves it (the function writes `emm_cause` through
the pointer), and the world after the call. -/
structure reject_result (Sec W : Type) where
  rc : Int
  args : Option (ue_mm_context_s Sec)
  world : W

/-! ## `ServiceRequestHdl.c`: functions -/

section Code

variable {Sec Sctx W : Type} [Zero Sec] [Zero Sctx]

/-- The static function `_emm_service_reject (void *args)`.

`emm_as_set_security_data (data, context, is_new, is_ciphered)` and
`emm_sap_send (msg)` are the two external functions it calls: the first fills
the security data behind its first argument from the context behind its second
one, the second takes the primitive and the world and returns its status and the
world it leaves. -/
def _emm_service_reject (K : nas_constants)
    (emm_as_set_security_data : Sctx → Sec → Bool → Bool → Sctx)
    (emm_sap_send : emm_sap_t Sctx → W → Int × W)
    (args : Option (ue_mm_context_s Sec)) (w : W) : reject_result Sec W :=
  let rc := K.RETURNerror
  match args with
  | some ue_mm_ctx =>
    let emm_sap := emm_sap_t.zero Sctx
    let emm_sap := { emm_sap with primitive := K.EMMAS_ESTABLISH_REJ }
    let emm_sap :=
      { emm_sap with establish := { emm_sap.establish with ue_id := ue_mm_ctx.mme_ue_s1ap_id } }
    let emm_sap :=
      { emm_sap with establish := { emm_sap.establish with eps_id := { guti := none } } }
    let ue_mm_ctx :=
      if ue_mm_ctx.emm_context.emm_cause = K.EMM_CAUSE_SUCCESS then
        { ue_mm_ctx with
          emm_context :=
            { ue_mm_ctx.emm_context with emm_cause := K.EMM_CAUSE_IMPLICITLY_DETACHED } }
      else ue_mm_ctx
    let emm_sap :=
      { emm_sap with
        establish := { emm_sap.establish with emm_cause := ue_mm_ctx.emm_context.emm_cause } }
    let emm_sap :=
      { emm_sap with establish := { emm_sap.establish with nas_info := K.EMM_AS_NAS_INFO_SR } }
    let emm_sap :=
      { emm_sap with establish := { emm_sap.establish with nas_msg := none } }
    let emm_sap :=
      { emm_sap with
        establish :=
          { emm_sap.establish with
            sctx :=
              emm_as_set_security_data emm_sap.establish.sctx ue_mm_ctx.emm_context._security
                false false } }
    let r := emm_sap_send emm_sap w
    { rc := r.1, args := some ue_mm_ctx, world := r.2 }
  | none => { rc := rc, args := none, world := w }

/-- The local variables of `emm_proc_service_reject` at its `return` statement
(the status `rc` and the record `ue_mm_ctx`), and the world at that point. -/
structure service_reject_frame (Sec W : Type) where
  rc : Int
  ue_mm_ctx : ue_mm_context_s Sec
  world : W

/-- The body of the exported function `emm_proc_service_reject (ue_id, emm_cause)`,
up to its `return` statement. The helper is called on the address of the local
record, so the record after the call is the one the helper leaves behind
`args`. -/
def emm_proc_service_reject_frame (K : nas_constants)
    (emm_as_set_security_data : Sctx → Sec → Bool → Bool → Sctx)
    (emm_sap_send : emm_sap_t Sctx → W → Int × W)
    (ue_id : mme_ue_s1ap_id_t) (emm_cause : emm_cause_t) (w : W) : service_reject_frame Sec W :=
  let ue_mm_ctx := ue_mm_context_s.zero Sec
  let ue_mm_ctx :=
    { ue_mm_ctx with emm_context := { ue_mm_ctx.emm_context with is_dynamic := false } }
  let ue_mm_ctx := { ue_mm_ctx with mme_ue_s1ap_id := ue_id }
  let ue_mm_ctx :=
    if ue_id > 0 then
      { ue_mm_ctx with emm_context := { ue_mm_ctx.emm_context with emm_cause := emm_cause } }
    else
      { ue_mm_ctx with
        emm_context :=
          { ue_mm_ctx.emm_context with emm_cause := K.EMM_CAUSE_IMPLICITLY_DETACHED } }
  let r := _emm_service_reject K emm_as_set_security_data emm_sap_send (some ue_mm_ctx) w
  { rc := r.rc, ue_mm_ctx := r.args.getD ue_mm_ctx, world := r.world }

/-- The exported function `emm_proc_service_reject (ue_id, emm_cause)`: the status
it returns and the world it leaves. The record `ue_mm_ctx` is a local variable
and is gone when the function returns. -/
def emm_proc_service_reject (K : nas_constants)
    (emm_as_set_security_data : Sctx → Sec → Bool → Bool → Sctx)
    (emm_sap_send : emm_sap_t Sctx → W → Int × W)
    (ue_id : mme_ue_s1ap_id_t) (emm_cause : emm_cause_t) (w : W) : Int × W :=
  let frame := emm_proc_service_reject_frame K emm_as_set_security_data emm_sap_send ue_id
    emm_cause w
  (frame.rc, frame.world)

end Code

/-! ## Observing the calls of `emm_sap_send` -/

/-- A downstream send whose world is the list of primitives sent so far: it
appends the primitive it is handed to that list and answers with the status
`status` chooses for it. It is one possible `emm_sap_send`, used to count the
calls and to evaluate the code on concrete inputs. -/
def emm_sap_send_log {Sctx : Type} (status : emm_sap_t Sctx → Int) (msg : emm_sap_t Sctx)
    (log : List (emm_sap_t Sctx)) : Int × List (emm_sap_t Sctx) :=
  (status msg, log ++ [msg])

/-- One choice of values for the constants, used to evaluate the code on concrete
inputs: the cause numbers are those of 3GPP TS 24.301 (cause #10 is "implicitly
detached"), the success sentinel lies outside the protocol range. -/
def sample_constants : nas_constants :=
  { RETURNok := 0
    RETURNerror := -1
    EMM_CAUSE_SUCCESS := -1
    EMM_CAUSE_IMPLICITLY_DETACHED := 10
    EMMAS_ESTABLISH_REJ := 3
    EMM_AS_NAS_INFO_SR := 5 }

/-- The cause "protocol error, unspecified" (cause #111 of 3GPP TS 24.301), used
as a concrete input. -/
def EMM_CAUSE_PROTOCOL_ERROR : emm_cause_t := 111

/-- One choice of `emm_as_set_security_data` over numeric security data, used to
evaluate the code on concrete inputs. -/
def sample_set_security_data (data context : Nat) (is_new is_ciphered : Bool) : Nat :=
  data + 2 * context + (if is_new then 100 else 0) + (if is_ciphered then 1000 else 0) + 7

/-! ## `esm_data.h`: session data, the session store and the SAP sender -/

/-- The structure `esm_context_t`: the ESM data of one UE. -/
structure esm_context_t where
  n_active_ebrs : Int
  n_active_pdns : Int
  n_pdns : Int
  is_emergency : Bool
  esm_proc_data : pointer
deriving DecidableEq, Repr

/-- Modelled from the spec: the Session Context Store (§4.3) behind
`esm_data_context_get`, `esm_data_context_add` and `esm_data_context_remove`,
which `esm_data.h` declares and whose bodies are missing: the sessions, in "an
ordered-by-identifier index". -/
abbrev session_store := List (mme_ue_s1ap_id_t × esm_context_t)

/-- Modelled from the spec: the process-resident state (§6: "all state is
process-resident") that the missing `emm_sap.c` and `esm_data.c` work on: the
Session Context Store `_esm_data`, every other piece of persistent subscriber
state (of a type `S` left open: the UE contexts are out of scope), and the
primitives forwarded so far to the access-stratum-facing collaborator. -/
structure nas_world (Sctx S : Type) where
  esm_data : session_store
  subscriber_state : S
  as_primitives : List (emm_sap_t Sctx)

/-- Modelled from the spec: `emm_sap_send` of the missing `emm_sap.c` (§4.6): it
"forwards a fully-populated hand-off primitive" "to the external
access-stratum-facing collaborator. This is a thin boundary call: it performs no
interpretation of the primitive's contents, only validates that a primitive is
non-null before forwarding, and propagates the collaborator's return status."
The answer of the collaborator is `as_status`; the argument is non-null by its
type. -/
def emm_sap_send {Sctx S : Type} (as_status : emm_sap_t Sctx → Int) (msg : emm_sap_t Sctx)
    (w : nas_world Sctx S) : Int × nas_world Sctx S :=
  (as_status msg, { w with as_primitives := w.as_primitives ++ [msg] })

/-- The enumeration `esm_ebr_state`, with its bound `ESM_EBR_STATE_MAX`. -/
inductive esm_ebr_state where
  | ESM_EBR_INACTIVE
  | ESM_EBR_ACTIVE
  | ESM_EBR_INACTIVE_PENDING
  | ESM_EBR_MODIFY_PENDING
  | ESM_EBR_ACTIVE_PENDING
  | ESM_EBR_STATE_MAX
deriving DecidableEq, Repr

open esm_ebr_state

/-- The structure `esm_ebr_timer_data_t`: retransmission data of an ESM message.
The encoded message `msg` is a `bstring`, a pointer to a byte string. -/
structure esm_ebr_timer_data_t where
  ctx : pointer
  ue_id : mme_ue_s1ap_id_t
  ebi : Nat
  count : Nat
  msg : Option (List Nat)
deriving DecidableEq, Repr

/-- The structure `esm_ebr_context_t`. `Timer` is the type `struct nas_timer_s`
of `nas_timer.h`; `args` is a pointer to the retransmission data. -/
structure esm_ebr_context_t (Timer : Type) where
  status : esm_ebr_state
  timer : Timer
  args : Option esm_ebr_timer_data_t
deriving DecidableEq, Repr

/-- The status is one of the five bearer states. -/
def is_bearer_state (s : esm_ebr_state) : Bool :=
  match s with
  | ESM_EBR_INACTIVE | ESM_EBR_ACTIVE | ESM_EBR_INACTIVE_PENDING | ESM_EBR_MODIFY_PENDING
  | ESM_EBR_ACTIVE_PENDING => true
  | ESM_EBR_STATE_MAX => false

/-- The status is one of the three pending states. -/
def is_pending (s : esm_ebr_state) : Bool :=
  match s with
  | ESM_EBR_INACTIVE_PENDING | ESM_EBR_MODIFY_PENDING | ESM_EBR_ACTIVE_PENDING => true
  | _ => false

/-- The bearer invariant: the status is one of the five states, and retransmission
data exists exactly in the pending states. -/
def bearer_invariant {Timer : Type} (b : esm_ebr_context_t Timer) : Prop :=
  is_bearer_state b.status = true ∧ (b.args.isSome = true ↔ is_pending b.status = true)

instance {Timer : Type} (b : esm_ebr_context_t Timer) : Decidable (bearer_invariant b) := by
  unfold bearer_invariant; exact inferInstance

/-! ## The bearer state machine and its retransmission timer

The functions that drive a bearer context (`esm_ebr.c`) are not among the
sources; the definitions of this section follow the design document (§4.1 Bearer
State Machine, §4.2 Retransmission Timer Subsystem) over the types of
`esm_data.h`. -/

/-- Modelled from the spec: the configuration of the retransmission timer
subsystem, which `esm_ebr.c` and `nas_timer.h` (missing) supply. "Timer duration
and max-retry count are fixed configuration constants supplied at subsystem
initialization"; the timing facility gives `arm(duration) -> timer_handle`, and
`idle` is the handle of a bearer with no armed timer. -/
structure ebr_timer_config (Timer : Type) where
  duration : Nat
  max_retries : Nat
  arm : Nat → Timer
  idle : Timer

/-- Modelled from the spec: the triggers of the transitions of §4.1 (missing
`esm_ebr.c`): a request sent by the network with its encoded message, an
acknowledgment received, and the expiry of the retransmission timer. -/
inductive ebr_event where
  | activate_request_sent (msg : List Nat)
  | deactivate_request_sent (msg : List Nat)
  | modify_request_sent (msg : List Nat)
  | ack_received
  | timer_expiry
deriving DecidableEq, Repr

section Bearer

variable {Timer : Type}

/-- Modelled from the spec: a newly allocated bearer of the missing `esm_ebr.c`.
"Initial state for a newly allocated bearer is `INACTIVE`"; it has no
retransmission record. -/
def esm_ebr_new (cfg : ebr_timer_config Timer) : esm_ebr_context_t Timer :=
  { status := esm_ebr_state.ESM_EBR_INACTIVE, timer := cfg.idle, args := none }

/-- Modelled from the spec: `start(bearer, encoded_message)` of the missing
`esm_ebr.c`: "arms a single-shot timer for that bearer, retains
`encoded_message` verbatim, sets `retry_count = 0`". -/
def esm_ebr_start_timer (cfg : ebr_timer_config Timer) (ue_id : mme_ue_s1ap_id_t) (ebi : Nat)
    (b : esm_ebr_context_t Timer) (msg : List Nat) : esm_ebr_context_t Timer :=
  { b with
    timer := cfg.arm cfg.duration
    args := some { ctx := none, ue_id := ue_id, ebi := ebi, count := 0, msg := some msg } }

/-- Modelled from the spec: `stop(bearer)` of the missing `esm_ebr.c`: "cancels
any armed timer and destroys the record immediately"; "stopping a bearer with no
active record is a no-op". -/
def esm_ebr_stop_timer (cfg : ebr_timer_config Timer) (b : esm_ebr_context_t Timer) :
    esm_ebr_context_t Timer :=
  match b.args with
  | some _ => { b with timer := cfg.idle, args := none }
  | none => b

/-- Modelled from the spec: the state a pending bearer of the missing
`esm_ebr.c` reaches when its acknowledgment is received (§4.1). -/
def ebr_state_after_ack : esm_ebr_state → Option esm_ebr_state
  | ESM_EBR_ACTIVE_PENDING => some ESM_EBR_ACTIVE
  | ESM_EBR_INACTIVE_PENDING => some ESM_EBR_INACTIVE
  | ESM_EBR_MODIFY_PENDING => some ESM_EBR_ACTIVE
  | _ => none

/-- Modelled from the spec: the state a pending bearer of the missing
`esm_ebr.c` reaches when its retries are exhausted (§4.1): an activation is
abandoned, a deactivation completes, a modification is abandoned. -/
def ebr_state_after_exhaustion : esm_ebr_state → Option esm_ebr_state
  | ESM_EBR_ACTIVE_PENDING => some ESM_EBR_INACTIVE
  | ESM_EBR_INACTIVE_PENDING => some ESM_EBR_INACTIVE
  | ESM_EBR_MODIFY_PENDING => some ESM_EBR_ACTIVE
  | _ => none

/-- Modelled from the spec: one transition of a bearer of the missing
`esm_ebr.c` (§4.1, §4.2); `none` when the event is no transition of the state.
A request sent moves to the pending state and starts the timer; an
acknowledgment stops the timer and moves on; an expiry with
`retry_count < max_retries` re-sends the retained message, increments
`retry_count` and re-arms the timer, an expiry with `retry_count ≥ max_retries`
performs the retries-exhausted transition and destroys the record. -/
def ebr_step (cfg : ebr_timer_config Timer) (ue_id : mme_ue_s1ap_id_t) (ebi : Nat)
    (b : esm_ebr_context_t Timer) : ebr_event → Option (esm_ebr_context_t Timer)
  | ebr_event.activate_request_sent msg =>
    if b.status = ESM_EBR_INACTIVE then
      some (esm_ebr_start_timer cfg ue_id ebi { b with status := ESM_EBR_ACTIVE_PENDING } msg)
    else none
  | ebr_event.deactivate_request_sent msg =>
    if b.status = ESM_EBR_ACTIVE then
      some (esm_ebr_start_timer cfg ue_id ebi { b with status := ESM_EBR_INACTIVE_PENDING } msg)
    else none
  | ebr_event.modify_request_sent msg =>
    if b.status = ESM_EBR_ACTIVE then
      some (esm_ebr_start_timer cfg ue_id ebi { b with status := ESM_EBR_MODIFY_PENDING } msg)
    else none
  | ebr_event.ack_received =>
    match ebr_state_after_ack b.status with
    | some s => some (esm_ebr_stop_timer cfg { b with status := s })
    | none => none
  | ebr_event.timer_expiry =>
    match b.args with
    | some r =>
      if r.count < cfg.max_retries then
        if is_pending b.status then
          some { b with timer := cfg.arm cfg.duration, args := some { r with count := r.count + 1 } }
        else none
      else
        match ebr_state_after_exhaustion b.status with
        | some s => some (esm_ebr_stop_timer cfg { b with status := s })
        | none => none
    | none => none

/-- Modelled from the spec: the bearer of the missing `esm_ebr.c` after a
sequence of events, each a transition of §4.1; `none` as soon as one of them is
no transition of the state it meets. -/
def ebr_run (cfg : ebr_timer_config Timer) (ue_id : mme_ue_s1ap_id_t) (ebi : Nat) :
    esm_ebr_context_t Timer → List ebr_event → Option (esm_ebr_context_t Timer)
  | b, [] => some b
  | b, ev :: evs =>
    match ebr_step cfg ue_id ebi b ev with
    | some b1 => ebr_run cfg ue_id ebi b1 evs
    | none => none

end Bearer

/-- One timer configuration over numeric timer handles, used to evaluate the state
machine on concrete inputs. -/
def sample_timer_config : ebr_timer_config Nat :=
  { duration := 8, max_retries := 5, arm := fun d => d + 1, idle := 0 }

/-! ## Lemmas shared by the results below -/

section Lemmas

/-- With a record behind `args`, `_emm_service_reject` is one call of
`emm_sap_send` on the primitive written out here; the record it leaves has its
cause overridden when it was the success sentinel. -/
theorem emm_service_reject_some {Sec Sctx W : Type} [Zero Sctx] (K : nas_constants)
    (sec : Sctx → Sec → Bool → Bool → Sctx) (send : emm_sap_t Sctx → W → Int × W)
    (c : ue_mm_context_s Sec) (w : W) :
    _emm_service_reject K sec send (some c) w =
      let cause :=
        if c.emm_context.emm_cause = K.EMM_CAUSE_SUCCESS then K.EMM_CAUSE_IMPLICITLY_DETACHED
        else c.emm_context.emm_cause
      let r :=
        send
          { primitive := K.EMMAS_ESTABLISH_REJ
            establish :=
              { ue_id := c.mme_ue_s1ap_id, eps_id := { guti := none }, emm_cause := cause,
                nas_info := K.EMM_AS_NAS_INFO_SR, nas_msg := none,
                sctx := sec 0 c.emm_context._security false false } } w
      { rc := r.1
        args := some { c with emm_context := { c.emm_context with emm_cause := cause } }
        world := r.2 } := by
  by_cases h : c.emm_context.emm_cause = K.EMM_CAUSE_SUCCESS <;>
    simp [_emm_service_reject, emm_sap_t.zero, h]

/-- The function `emm_proc_service_reject` is one call of `emm_sap_send` on the
primitive written out here. -/
theorem emm_proc_service_reject_send {Sec Sctx W : Type} [Zero Sec] [Zero Sctx]
    (K : nas_constants)
    (sec : Sctx → Sec → Bool → Bool → Sctx) (send : emm_sap_t Sctx → W → Int × W)
    (ue_id : mme_ue_s1ap_id_t) (emm_cause : emm_cause_t) (w : W) :
    emm_proc_service_reject K sec send ue_id emm_cause w =
      send
        { primitive := K.EMMAS_ESTABLISH_REJ
          establish :=
            { ue_id := ue_id, eps_id := { guti := none },
              emm_cause :=
                if ue_id > 0 ∧ emm_cause ≠ K.EMM_CAUSE_SUCCESS then emm_cause
                else K.EMM_CAUSE_IMPLICITLY_DETACHED,
              nas_info := K.EMM_AS_NAS_INFO_SR, nas_msg := none,
              sctx := sec 0 0 false false } } w := by
  unfold emm_proc_service_reject emm_proc_service_reject_frame
  simp only [emm_service_reject_some]
  by_cases h : ue_id > 0 <;> by_cases h2 : emm_cause = K.EMM_CAUSE_SUCCESS <;>
    simp [ue_mm_context_s.zero, h, h2]

/-- The function `emm_proc_service_reject` is `_emm_service_reject` on the address
of the record written out here. -/
theorem emm_proc_service_reject_helper {Sec Sctx W : Type} [Zero Sec] [Zero Sctx]
    (K : nas_constants)
    (sec : Sctx → Sec → Bool → Bool → Sctx) (send : emm_sap_t Sctx → W → Int × W)
    (ue_id : mme_ue_s1ap_id_t) (emm_cause : emm_cause_t) (w : W) :
    emm_proc_service_reject K sec send ue_id emm_cause w =
      ((_emm_service_reject K sec send
          (some
            { mme_ue_s1ap_id := ue_id
              emm_context :=
                { is_dynamic := false,
                  emm_cause :=
                    if ue_id > 0 then emm_cause else K.EMM_CAUSE_IMPLICITLY_DETACHED,
                  _security := 0 } }) w).rc,
        (_emm_service_reject K sec send
          (some
            { mme_ue_s1ap_id := ue_id
              emm_context :=
                { is_dynamic := false,
                  emm_cause :=
                    if ue_id > 0 then emm_cause else K.EMM_CAUSE_IMPLICITLY_DETACHED,
                  _security := 0 } }) w).world) := by
  unfold emm_proc_service_reject emm_proc_service_reject_frame
  by_cases h : ue_id > 0 <;> simp [ue_mm_context_s.zero, h]

/-- A transition of the bearer state machine keeps the bearer invariant. -/
theorem ebr_step_invariant {Timer : Type} (cfg : ebr_timer_config Timer)
    (ue_id : mme_ue_s1ap_id_t) (ebi : Nat) (b b1 : esm_ebr_context_t Timer) (ev : ebr_event)
    (hb : bearer_invariant b) (h : ebr_step cfg ue_id ebi b ev = some b1) :
    bearer_invariant b1 := by
  rcases b with ⟨st, tm, ar⟩
  cases ev <;> cases st <;> cases ar <;>
    simp [ebr_step, esm_ebr_start_timer, esm_ebr_stop_timer, ebr_state_after_ack,
      ebr_state_after_exhaustion, is_pending, bearer_invariant, is_bearer_state] at hb h <;>
    first
      | (subst h
         simp [bearer_invariant, is_bearer_state, is_pending])
      | (split at h <;> simp at h <;> subst h <;>
          simp [bearer_invariant, is_bearer_state, is_pending])

/-- A sequence of transitions of the bearer state machine keeps the bearer
invariant. -/
theorem ebr_run_invariant {Timer : Type} (cfg : ebr_timer_config Timer)
    (ue_id : mme_ue_s1ap_id_t) (ebi : Nat) (evs : List ebr_event) :
    ∀ b b1 : esm_ebr_context_t Timer,
      bearer_invariant b → ebr_run cfg ue_id ebi b evs = some b1 → bearer_invariant b1 := by
  induction evs with
  | nil =>
    intro b b1 hb h
    simp [ebr_run] at h
    exact h ▸ hb
  | cons ev evs ih =>
    intro b b1 hb h
    simp only [ebr_run] at h
    split at h
    · rename_i b2 hstep
      exact ih b2 b1 (ebr_step_invariant cfg ue_id ebi b b2 ev hb hstep) h
    · simp at h

end Lemmas

/-! ## The service-reject hand-off -/

/-- C1: when the UE identifier is the one the code treats as unknown (`0`, the
only value failing the test `ue_id > 0`), the primitive handed to `emm_sap_send`
carries the cause `EMM_CAUSE_IMPLICITLY_DETACHED`, whatever cause was supplied. -/
theorem reject_unknown_id_implicitly_detached {Sec Sctx : Type} [Zero Sec] [Zero Sctx]
    (K : nas_constants) (sec : Sctx → Sec → Bool → Bool → Sctx) (emm_cause : emm_cause_t) :
    ∃ p : emm_sap_t Sctx,
      p.establish.emm_cause = K.EMM_CAUSE_IMPLICITLY_DETACHED ∧
      ∀ (W : Type) (send : emm_sap_t Sctx → W → Int × W) (w : W),
        emm_proc_service_reject K sec send 0 emm_cause w = send p w :=
  ⟨_, by simp, fun _ send w => emm_proc_service_reject_send K sec send 0 emm_cause w⟩

/-- C2: for a UE identifier other than `0` and a supplied cause other than the
success sentinel, the primitive handed to `emm_sap_send` carries the supplied
identifier and the supplied cause, unchanged. -/
theorem reject_known_id_cause_unchanged {Sec Sctx : Type} [Zero Sec] [Zero Sctx]
    (K : nas_constants) (sec : Sctx → Sec → Bool → Bool → Sctx)
    (ue_id : mme_ue_s1ap_id_t) (emm_cause : emm_cause_t)
    (hid : ue_id ≠ 0) (hcause : emm_cause ≠ K.EMM_CAUSE_SUCCESS) :
    ∃ p : emm_sap_t Sctx,
      p.establish.ue_id = ue_id ∧ p.establish.emm_cause = emm_cause ∧
      ∀ (W : Type) (send : emm_sap_t Sctx → W → Int × W) (w : W),
        emm_proc_service_reject K sec send ue_id emm_cause w = send p w :=
  ⟨_, rfl, by simp [Nat.pos_of_ne_zero hid, hcause],
    fun _ send w => emm_proc_service_reject_send K sec send ue_id emm_cause w⟩

/-- Witness of C2 at identifier 42 and cause "protocol error": the hypotheses
hold there, and the code run on a logging send produces the one primitive shown. -/
theorem reject_known_id_cause_unchanged_witness :
    ((42 : mme_ue_s1ap_id_t) ≠ 0 ∧
      EMM_CAUSE_PROTOCOL_ERROR ≠ sample_constants.EMM_CAUSE_SUCCESS) ∧
    (∃ p : emm_sap_t Nat,
      p.establish.ue_id = 42 ∧ p.establish.emm_cause = EMM_CAUSE_PROTOCOL_ERROR ∧
      ∀ (W : Type) (send : emm_sap_t Nat → W → Int × W) (w : W),
        emm_proc_service_reject sample_constants sample_set_security_data send 42
          EMM_CAUSE_PROTOCOL_ERROR w = send p w) ∧
    emm_proc_service_reject sample_constants sample_set_security_data
        (emm_sap_send_log fun _ => 0) 42 EMM_CAUSE_PROTOCOL_ERROR [] =
      (0, [{ primitive := 3
             establish :=
               { ue_id := 42, eps_id := { guti := none }, emm_cause := 111, nas_info := 5,
                 nas_msg := none, sctx := 7 } }]) :=
  ⟨⟨by decide, by decide⟩,
    reject_known_id_cause_unchanged sample_constants sample_set_security_data 42
      EMM_CAUSE_PROTOCOL_ERROR (by decide) (by decide),
    by decide⟩

/-- C3: for every UE identifier, a call with the cause `EMM_CAUSE_SUCCESS` hands
`emm_sap_send` a primitive whose cause is `EMM_CAUSE_IMPLICITLY_DETACHED`; and,
the two constants being different, the primitive of no call carries the cause
`EMM_CAUSE_SUCCESS`. -/
theorem reject_never_reports_success {Sec Sctx : Type} [Zero Sec] [Zero Sctx]
    (K : nas_constants) (sec : Sctx → Sec → Bool → Bool → Sctx) (ue_id : mme_ue_s1ap_id_t) :
    (∃ p : emm_sap_t Sctx,
      p.establish.emm_cause = K.EMM_CAUSE_IMPLICITLY_DETACHED ∧
      ∀ (W : Type) (send : emm_sap_t Sctx → W → Int × W) (w : W),
        emm_proc_service_reject K sec send ue_id K.EMM_CAUSE_SUCCESS w = send p w) ∧
    (K.EMM_CAUSE_SUCCESS ≠ K.EMM_CAUSE_IMPLICITLY_DETACHED →
      ∀ emm_cause : emm_cause_t, ∃ p : emm_sap_t Sctx,
        p.establish.emm_cause ≠ K.EMM_CAUSE_SUCCESS ∧
        ∀ (W : Type) (send : emm_sap_t Sctx → W → Int × W) (w : W),
          emm_proc_service_reject K sec send ue_id emm_cause w = send p w) := by
  refine ⟨⟨_, by simp, fun _ send w => emm_proc_service_reject_send K sec send ue_id _ w⟩, ?_⟩
  intro hK emm_cause
  refine ⟨_, ?_, fun _ send w => emm_proc_service_reject_send K sec send ue_id emm_cause w⟩
  show (if ue_id > 0 ∧ emm_cause ≠ K.EMM_CAUSE_SUCCESS then emm_cause
    else K.EMM_CAUSE_IMPLICITLY_DETACHED) ≠ K.EMM_CAUSE_SUCCESS
  split
  · rename_i h; exact h.2
  · exact fun h => hK h.symm

/-- Witness of C3 with the sample constants, whose success sentinel differs from
"implicitly detached": the call for identifier 42 with cause `EMM_CAUSE_SUCCESS`
run on a logging send produces one primitive, of cause 10. -/
theorem reject_never_reports_success_witness :
    sample_constants.EMM_CAUSE_SUCCESS ≠ sample_constants.EMM_CAUSE_IMPLICITLY_DETACHED ∧
    (∃ p : emm_sap_t Nat,
      p.establish.emm_cause ≠ sample_constants.EMM_CAUSE_SUCCESS ∧
      ∀ (W : Type) (send : emm_sap_t Nat → W → Int × W) (w : W),
        emm_proc_service_reject sample_constants sample_set_security_data send 42
          sample_constants.EMM_CAUSE_SUCCESS w = send p w) ∧
    (emm_proc_service_reject sample_constants sample_set_security_data
        (emm_sap_send_log fun _ => 0) 42 sample_constants.EMM_CAUSE_SUCCESS []).2.map
      (fun p => p.establish.emm_cause) = [10] :=
  ⟨by decide,
    (reject_never_reports_success sample_constants sample_set_security_data 42).2 (by decide)
      sample_constants.EMM_CAUSE_SUCCESS,
    by decide⟩

/-- C4: for every input, the unknown identifier included, the primitive handed to
`emm_sap_send` has kind `EMMAS_ESTABLISH_REJ`, the supplied UE identifier, a null
GUTI, the NAS-info tag `EMM_AS_NAS_INFO_SR` and a null NAS message. -/
theorem reject_primitive_shape {Sec Sctx : Type} [Zero Sec] [Zero Sctx]
    (K : nas_constants) (sec : Sctx → Sec → Bool → Bool → Sctx)
    (ue_id : mme_ue_s1ap_id_t) (emm_cause : emm_cause_t) :
    ∃ p : emm_sap_t Sctx,
      p.primitive = K.EMMAS_ESTABLISH_REJ ∧ p.establish.ue_id = ue_id ∧
      p.establish.eps_id.guti = none ∧ p.establish.nas_info = K.EMM_AS_NAS_INFO_SR ∧
      p.establish.nas_msg = none ∧
      ∀ (W : Type) (send : emm_sap_t Sctx → W → Int × W) (w : W),
        emm_proc_service_reject K sec send ue_id emm_cause w = send p w :=
  ⟨_, rfl, rfl, rfl, rfl, rfl,
    fun _ send w => emm_proc_service_reject_send K sec send ue_id emm_cause w⟩

/-- C5: for every input, the call is exactly one call of `emm_sap_send`: its
status and the world it leaves are those of that one call, whatever the send
does; it returns `RETURNok` exactly when the send did; and on a logging send the
log grows by exactly one primitive, whatever status the send answers. -/
theorem reject_sends_once_and_returns_send_status {Sec Sctx : Type} [Zero Sec] [Zero Sctx]
    (K : nas_constants) (sec : Sctx → Sec → Bool → Bool → Sctx)
    (ue_id : mme_ue_s1ap_id_t) (emm_cause : emm_cause_t) :
    ∃ p : emm_sap_t Sctx,
      (∀ (W : Type) (send : emm_sap_t Sctx → W → Int × W) (w : W),
        emm_proc_service_reject K sec send ue_id emm_cause w = send p w ∧
        ((emm_proc_service_reject K sec send ue_id emm_cause w).1 = K.RETURNok ↔
          (send p w).1 = K.RETURNok)) ∧
      ∀ (status : emm_sap_t Sctx → Int) (log : List (emm_sap_t Sctx)),
        emm_proc_service_reject K sec (emm_sap_send_log status) ue_id emm_cause log =
          (status p, log ++ [p]) := by
  refine
    ⟨{ primitive := K.EMMAS_ESTABLISH_REJ
       establish :=
         { ue_id := ue_id, eps_id := { guti := none },
           emm_cause :=
             if ue_id > 0 ∧ emm_cause ≠ K.EMM_CAUSE_SUCCESS then emm_cause
             else K.EMM_CAUSE_IMPLICITLY_DETACHED,
           nas_info := K.EMM_AS_NAS_INFO_SR, nas_msg := none,
           sctx := sec 0 0 false false } },
      fun _ send w => ?_, fun status log => ?_⟩
  · have h := emm_proc_service_reject_send K sec send ue_id emm_cause w
    exact ⟨h, by rw [h]⟩
  · rw [emm_proc_service_reject_send]; rfl

/-- C6: for every input, the security data of the primitive handed to
`emm_sap_send` is what `emm_as_set_security_data` makes of the zero-initialised
security data of the primitive and the security context of the local record,
with both flags false; that security context is the zero-initialised one, which
the code never writes. The code is the same for every type of security context
and security data, so it cannot build a value of either by itself. -/
theorem reject_security_data_delegated {Sec Sctx : Type} [Zero Sec] [Zero Sctx]
    (K : nas_constants) (sec : Sctx → Sec → Bool → Bool → Sctx)
    (ue_id : mme_ue_s1ap_id_t) (emm_cause : emm_cause_t) :
    ∃ (c : ue_mm_context_s Sec) (p : emm_sap_t Sctx),
      c.mme_ue_s1ap_id = ue_id ∧
      c.emm_context._security = (ue_mm_context_s.zero Sec).emm_context._security ∧
      p.establish.sctx =
        sec (emm_sap_t.zero Sctx).establish.sctx c.emm_context._security false false ∧
      (∀ (W : Type) (send : emm_sap_t Sctx → W → Int × W) (w : W),
        emm_proc_service_reject K sec send ue_id emm_cause w =
          ((_emm_service_reject K sec send (some c) w).rc,
            (_emm_service_reject K sec send (some c) w).world)) ∧
      ∀ (W : Type) (send : emm_sap_t Sctx → W → Int × W) (w : W),
        emm_proc_service_reject K sec send ue_id emm_cause w = send p w :=
  ⟨{ mme_ue_s1ap_id := ue_id
     emm_context :=
       { is_dynamic := false,
         emm_cause := if ue_id > 0 then emm_cause else K.EMM_CAUSE_IMPLICITLY_DETACHED,
         _security := 0 } },
    _, rfl, rfl, rfl,
    fun _ send w => emm_proc_service_reject_helper K sec send ue_id emm_cause w,
    fun _ send w => emm_proc_service_reject_send K sec send ue_id emm_cause w⟩

/-- C9: the primitive handed to `emm_sap_send` is fixed by `ue_id` and
`emm_cause` (and the two collaborators) before any world or send is looked at,
so equal inputs give equal primitives whatever the stored state; every field of
it is written out here, and its cause is `emm_cause` if `ue_id > 0` and
`emm_cause ≠ EMM_CAUSE_SUCCESS`, `EMM_CAUSE_IMPLICITLY_DETACHED` otherwise. The
test `ue_id > 0` fails for `0` only; in particular the largest 32-bit identifier
has its cause passed through like every other non-zero one. -/
theorem reject_primitive_function_of_inputs {Sec Sctx : Type} [Zero Sec] [Zero Sctx]
    (K : nas_constants) (sec : Sctx → Sec → Bool → Bool → Sctx)
    (ue_id : mme_ue_s1ap_id_t) (emm_cause : emm_cause_t) :
    (∃ p : emm_sap_t Sctx,
      p =
        { primitive := K.EMMAS_ESTABLISH_REJ
          establish :=
            { ue_id := ue_id, eps_id := { guti := none },
              emm_cause :=
                if ue_id > 0 ∧ emm_cause ≠ K.EMM_CAUSE_SUCCESS then emm_cause
                else K.EMM_CAUSE_IMPLICITLY_DETACHED,
              nas_info := K.EMM_AS_NAS_INFO_SR, nas_msg := none,
              sctx := sec 0 0 false false } } ∧
      ∀ (W : Type) (send : emm_sap_t Sctx → W → Int × W) (w : W),
        emm_proc_service_reject K sec send ue_id emm_cause w = send p w) ∧
    (ue_id > 0 ↔ ue_id ≠ 0) ∧
    (∃ q : emm_sap_t Sctx,
      q.establish.ue_id = 4294967295 ∧
      q.establish.emm_cause =
        (if emm_cause ≠ K.EMM_CAUSE_SUCCESS then emm_cause
          else K.EMM_CAUSE_IMPLICITLY_DETACHED) ∧
      ∀ (W : Type) (send : emm_sap_t Sctx → W → Int × W) (w : W),
        emm_proc_service_reject K sec send 4294967295 emm_cause w = send q w) := by
  refine ⟨⟨_, rfl, fun _ send w => emm_proc_service_reject_send K sec send ue_id emm_cause w⟩,
    Nat.pos_iff_ne_zero,
    ⟨_, rfl, ?_, fun _ send w => emm_proc_service_reject_send K sec send _ emm_cause w⟩⟩
  simp

/-- C10: with a null `args`, `_emm_service_reject` returns `RETURNerror` and
leaves the world as it is, whatever the send would do (a logging send logs
nothing); with a record behind `args` it is one call of `emm_sap_send`, and
`emm_proc_service_reject` always calls it with a record, so every call of
`emm_proc_service_reject` is one call of `emm_sap_send` (a logging send logs
exactly one primitive). -/
theorem service_reject_null_branch_unreachable {Sec Sctx : Type} [Zero Sec] [Zero Sctx]
    (K : nas_constants) (sec : Sctx → Sec → Bool → Bool → Sctx) :
    (∀ (W : Type) (send : emm_sap_t Sctx → W → Int × W) (w : W),
      (_emm_service_reject K sec send (none : Option (ue_mm_context_s Sec)) w).rc =
          K.RETURNerror ∧
        (_emm_service_reject K sec send (none : Option (ue_mm_context_s Sec)) w).world = w) ∧
    (∀ (status : emm_sap_t Sctx → Int) (log : List (emm_sap_t Sctx)),
      (_emm_service_reject K sec (emm_sap_send_log status)
        (none : Option (ue_mm_context_s Sec)) log).world = log) ∧
    (∀ c : ue_mm_context_s Sec, ∃ p : emm_sap_t Sctx,
      (∀ (W : Type) (send : emm_sap_t Sctx → W → Int × W) (w : W),
        ((_emm_service_reject K sec send (some c) w).rc,
          (_emm_service_reject K sec send (some c) w).world) = send p w) ∧
      ∀ (status : emm_sap_t Sctx → Int) (log : List (emm_sap_t Sctx)),
        (_emm_service_reject K sec (emm_sap_send_log status) (some c) log).world =
          log ++ [p]) ∧
    (∀ (ue_id : mme_ue_s1ap_id_t) (emm_cause : emm_cause_t),
      ∃ (c : ue_mm_context_s Sec) (p : emm_sap_t Sctx),
        (∀ (W : Type) (send : emm_sap_t Sctx → W → Int × W) (w : W),
          emm_proc_service_reject K sec send ue_id emm_cause w =
              ((_emm_service_reject K sec send (some c) w).rc,
                (_emm_service_reject K sec send (some c) w).world) ∧
            emm_proc_service_reject K sec send ue_id emm_cause w = send p w) ∧
        ∀ (status : emm_sap_t Sctx → Int) (log : List (emm_sap_t Sctx)),
          (emm_proc_service_reject K sec (emm_sap_send_log status) ue_id emm_cause log).2 =
            log ++ [p]) := by
  refine ⟨fun _ _ _ => ⟨rfl, rfl⟩, fun _ _ => rfl, fun c => ?_, fun ue_id emm_cause => ?_⟩
  · refine
      ⟨(_emm_service_reject K sec (fun q _ => ((0 : Int), q)) (some c)
          (emm_sap_t.zero Sctx)).world,
        fun _ send w => ?_, fun status log => ?_⟩
    · simp only [emm_service_reject_some]
    · simp only [emm_service_reject_some]; rfl
  · refine
      ⟨{ mme_ue_s1ap_id := ue_id
         emm_context :=
           { is_dynamic := false,
             emm_cause := if ue_id > 0 then emm_cause else K.EMM_CAUSE_IMPLICITLY_DETACHED,
             _security := 0 } },
        (emm_proc_service_reject K sec (fun q _ => ((0 : Int), q)) ue_id emm_cause
          (emm_sap_t.zero Sctx)).2,
        fun _ send w => ⟨?_, ?_⟩, fun status log => ?_⟩
    · exact emm_proc_service_reject_helper K sec send ue_id emm_cause w
    · simp only [emm_proc_service_reject_send]
    · simp only [emm_proc_service_reject_send]; rfl

/-! ## The bearer invariant -/

/-- C8, as stated, fails: a value of `esm_ebr_context_t` may have the status
`ESM_EBR_ACTIVE` together with retransmission data, the status
`ESM_EBR_ACTIVE_PENDING` with a null `args`, or the status `ESM_EBR_STATE_MAX`,
which is an enumerator of `esm_ebr_state` but none of the five states. -/
theorem bearer_invariant_not_by_type :
    ¬ bearer_invariant
        ({ status := esm_ebr_state.ESM_EBR_ACTIVE, timer := (0 : Nat),
           args := some { ctx := none, ue_id := 42, ebi := 5, count := 0, msg := some [7] } } :
          esm_ebr_context_t Nat) ∧
    ¬ bearer_invariant
        ({ status := esm_ebr_state.ESM_EBR_ACTIVE_PENDING, timer := (0 : Nat), args := none } :
          esm_ebr_context_t Nat) ∧
    ¬ bearer_invariant
        ({ status := esm_ebr_state.ESM_EBR_STATE_MAX, timer := (0 : Nat), args := none } :
          esm_ebr_context_t Nat) := by
  decide

/-- C8, amended: every bearer reached from a newly allocated bearer by
transitions of the bearer state machine has one of the five states as status,
and has retransmission data exactly when that state is one of the three pending
states. -/
theorem reachable_bearer_invariant {Timer : Type} (cfg : ebr_timer_config Timer)
    (ue_id : mme_ue_s1ap_id_t) (ebi : Nat) (evs : List ebr_event) (b : esm_ebr_context_t Timer)
    (h : ebr_run cfg ue_id ebi (esm_ebr_new cfg) evs = some b) :
    is_bearer_state b.status = true ∧ (b.args.isSome = true ↔ is_pending b.status = true) :=
  ebr_run_invariant cfg ue_id ebi evs (esm_ebr_new cfg) b
    (by simp [bearer_invariant, esm_ebr_new, is_bearer_state, is_pending]) h

/-- Witness of the amended C8: an activation request, one retransmission, the
acknowledgment, a modification request and one retransmission lead to a bearer
in `ESM_EBR_MODIFY_PENDING` holding the modification message with count 1. -/
theorem reachable_bearer_invariant_witness :
    ebr_run sample_timer_config 42 5 (esm_ebr_new sample_timer_config)
        [ebr_event.activate_request_sent [1, 2, 3], ebr_event.timer_expiry,
          ebr_event.ack_received, ebr_event.modify_request_sent [9], ebr_event.timer_expiry] =
      some
        { status := esm_ebr_state.ESM_EBR_MODIFY_PENDING, timer := 9,
          args := some { ctx := none, ue_id := 42, ebi := 5, count := 1, msg := some [9] } } ∧
    (is_bearer_state esm_ebr_state.ESM_EBR_MODIFY_PENDING = true ∧
      ((some ({ ctx := none, ue_id := 42, ebi := 5, count := 1, msg := some [9] } :
          esm_ebr_timer_data_t)).isSome = true ↔
        is_pending esm_ebr_state.ESM_EBR_MODIFY_PENDING = true)) :=
  ⟨by decide,
    reachable_bearer_invariant sample_timer_config 42 5
      [ebr_event.activate_request_sent [1, 2, 3], ebr_event.timer_expiry,
        ebr_event.ack_received, ebr_event.modify_request_sent [9], ebr_event.timer_expiry]
      { status := esm_ebr_state.ESM_EBR_MODIFY_PENDING, timer := 9,
        args := some { ctx := none, ue_id := 42, ebi := 5, count := 1, msg := some [9] } }
      (by decide)⟩

end OpenairCN
